import Mathlib

/-!
Shallow embedding of the VLM post-processing report service
(src/vlm-service/main.py): the template registry, the explanation
formatter, the report aggregator, the recommendation policy and the
caller-facing report-generation operation, together with theorems about
them.

Modelling conventions:
  - Python numbers (ints and floats carried in JSON metrics and
    timestamps) are modelled as rationals; timestamps are seconds.
  - A Python dict of metrics is an association list; `dict.get` with a
    default is `mget`.
  - A value substituted through a numeric format spec (".0%", ".1f")
    must be a number, otherwise `str.format` raises; this is `asNum`
    returning `Except`.  A bare placeholder ("{window}", "{count}" in
    the source templates) applies `str(...)`, which never raises.
  - Exact decimal rendering of floats is abstracted by `fmtPct0`,
    `fmtFixed1` and `ratStr` (rounding mode of CPython float formatting
    is not reproduced; no theorem depends on the rendered digits of a
    non-trivial number).
  - A raised exception is an `Except.error`; a Python function that
    catches internally and always returns is a total Lean function.
-/

namespace VlmService

/-- A Python scalar value as carried in the `metrics` JSON mapping. -/
inductive PyVal
  | num (q : Rat)
  | str (s : String)
deriving DecidableEq

/-- The `metrics` mapping of an anomaly: a Python dict, keys to scalars. -/
abbrev Metrics := List (String × PyVal)

/-- Python `metrics.get(k, d)`. -/
def mget (m : Metrics) (k : String) (d : PyVal) : PyVal :=
  match List.lookup k m with
  | some v => v
  | none => d

/-- Coercion performed by a numeric format spec: a non-number raises
(`Except.error`), exactly as `"{:.1f}".format("x")` raises in Python. -/
def asNum : PyVal → Except Unit Rat
  | .num q => .ok q
  | .str _ => .error ()

/-- Python `str()` of a number (integers render without a decimal point;
the rendering of a non-integral rational is abstracted). -/
def ratStr (q : Rat) : String :=
  if q.den = 1 then toString q.num else toString q

/-- Python `str()` of a scalar, as applied by a bare format placeholder. -/
def pyStr : PyVal → String
  | .num q => ratStr q
  | .str s => s

/-- The ".0%" format spec: the value times 100, rounded to an integer,
with a percent sign. -/
def fmtPct0 (q : Rat) : String :=
  toString (round (q * 100) : Int) ++ "%"

/-- The ".1f" format spec: fixed-point with one decimal digit. -/
def fmtFixed1 (q : Rat) : String :=
  let n : Int := round (q * 10)
  (if n < 0 then "-" else "") ++ toString (n.natAbs / 10) ++ "." ++ toString (n.natAbs % 10)

/-- Serialization of one scalar inside `json.dumps` of the metrics. -/
def jsonVal : PyVal → String
  | .num q => ratStr q
  | .str s => "\"" ++ s ++ "\""

/-- Python `json.dumps(metrics)`. -/
def jsonDumps (m : Metrics) : String :=
  "\x7b" ++ String.intercalate ", " (m.map (fun p => "\"" ++ p.1 ++ "\": " ++ jsonVal p.2)) ++ "\x7d"

/-- The ANOMALY_EXPLANATIONS template registry of the source: anomaly
type to explanation template text (format placeholders kept verbatim). -/
def ANOMALY_EXPLANATIONS : List (String × String) :=
  [("off_screen_gaze",
    "The candidate was looking away from the screen for \x7brate:.0%\x7d of the last \x7bwindow\x7d. This may indicate they were reading from notes, looking at another device, or distracted."),
   ("object_phone",
    "A phone or mobile device was detected in the candidate's hands or nearby for \x7bduration:.1f\x7d seconds. This could indicate they were using the device during the interview."),
   ("object_paper",
    "Printed materials (paper or book) were visible for \x7bduration:.1f\x7d seconds. This may indicate the candidate was referencing notes or documents."),
   ("multi_person",
    "Another person was detected entering the frame \x7bcount\x7d times. This could be someone assisting the candidate or an environmental factor."),
   ("face_absence",
    "The candidate left the frame for \x7bduration:.1f\x7d seconds. This could indicate they stood up, moved away, or there was a technical issue."),
   ("excessive_head_movement",
    "Unusual head movement patterns were detected (yaw σ=\x7byaw:.1f\x7d°, pitch σ=\x7bpitch:.1f\x7d°). This may indicate nervousness, reading from multiple sources, or restlessness.")]

/-- The anomaly types the template registry recognizes. -/
def explainKeys : List String := ANOMALY_EXPLANATIONS.map Prod.fst

/-- The metric keys the source's substitution branch for each recognized
anomaly type reads from the metrics mapping. -/
def readKeys (t : String) : List String :=
  if t = "off_screen_gaze" then ["off_screen_rate", "window"]
  else if t = "object_phone" then ["duration_sec"]
  else if t = "object_paper" then ["duration_sec"]
  else if t = "face_absence" then ["duration_sec"]
  else if t = "multi_person" then ["detection_count"]
  else if t = "excessive_head_movement" then ["yaw_std", "pitch_std"]
  else []

/-- The default the source's `metrics.get` supplies for a missing key:
the label "1min" for `window`, the number 0 for every other key. -/
def defaultFor (k : String) : PyVal :=
  if k = "window" then .str "1min" else .num 0

/-- The try-block of `explain_anomaly`: template lookup (with the
generic fallback template for an unrecognized type) composed with the
branch-specific `template.format(...)` call, each template's placeholders
unfolded into the text that surrounds them.  `Except.error` is the raised
formatting exception that the source then catches. -/
def tryFormat (anomaly_type : String) (metrics : Metrics) : Except Unit String :=
  if anomaly_type = "off_screen_gaze" then
    (asNum (mget metrics "off_screen_rate" (.num 0))).map (fun rate =>
      "The candidate was looking away from the screen for " ++ fmtPct0 rate ++
      " of the last " ++ pyStr (mget metrics "window" (.str "1min")) ++
      ". This may indicate they were reading from notes, looking at another device, or distracted.")
  else if anomaly_type = "object_phone" then
    (asNum (mget metrics "duration_sec" (.num 0))).map (fun duration =>
      "A phone or mobile device was detected in the candidate's hands or nearby for " ++
      fmtFixed1 duration ++
      " seconds. This could indicate they were using the device during the interview.")
  else if anomaly_type = "object_paper" then
    (asNum (mget metrics "duration_sec" (.num 0))).map (fun duration =>
      "Printed materials (paper or book) were visible for " ++ fmtFixed1 duration ++
      " seconds. This may indicate the candidate was referencing notes or documents.")
  else if anomaly_type = "face_absence" then
    (asNum (mget metrics "duration_sec" (.num 0))).map (fun duration =>
      "The candidate left the frame for " ++ fmtFixed1 duration ++
      " seconds. This could indicate they stood up, moved away, or there was a technical issue.")
  else if anomaly_type = "multi_person" then
    Except.ok ("Another person was detected entering the frame " ++
      pyStr (mget metrics "detection_count" (.num 0)) ++
      " times. This could be someone assisting the candidate or an environmental factor.")
  else if anomaly_type = "excessive_head_movement" then
    (asNum (mget metrics "yaw_std" (.num 0))).bind (fun yaw =>
      (asNum (mget metrics "pitch_std" (.num 0))).map (fun pitch =>
        "Unusual head movement patterns were detected (yaw σ=" ++ fmtFixed1 yaw ++
        "°, pitch σ=" ++ fmtFixed1 pitch ++
        "°). This may indicate nervousness, reading from multiple sources, or restlessness."))
  else
    Except.ok ("An anomaly of type '" ++ anomaly_type ++ "' was detected. Please review the session data.")

/-- The follow-up question table of `get_followup_questions`, with its
generic default for a type absent from the table. -/
def get_followup_questions (anomaly_type : String) : List String :=
  if anomaly_type = "off_screen_gaze" then
    ["Can you describe your workspace setup?",
     "Were you referencing any materials during the interview?",
     "Did you experience any technical difficulties?"]
  else if anomaly_type = "object_phone" then
    ["Were you using your phone for anything during the interview?",
     "Do you recall checking your phone at any point?",
     "Was there an emergency or important notification?"]
  else if anomaly_type = "object_paper" then
    ["Were you referencing notes or documentation during the interview?",
     "Can you describe what materials you had with you?",
     "Did you prepare written notes beforehand?"]
  else if anomaly_type = "multi_person" then
    ["Was anyone else present during your interview?",
     "Did anyone enter your space during the session?",
     "Can you describe your interview environment?"]
  else if anomaly_type = "face_absence" then
    ["Did you need to step away at any point?",
     "Were there any technical issues with your camera?",
     "Did you experience any interruptions?"]
  else
    ["Can you provide context for this flag?"]

/-- The anomaly types that have an entry in the follow-up question table
(note: one fewer than `explainKeys`). -/
def followupKeys : List String :=
  ["off_screen_gaze", "object_phone", "object_paper", "multi_person", "face_absence"]

/-- The response body of the /explain endpoint. -/
structure ExplainResponse where
  anomaly_type : String
  explanation : String
  confidence : Rat
  evidence_bullets : List String
  suggested_followup : List String
deriving DecidableEq

/-- The /explain endpoint `explain_anomaly`: substitution with the
caught-exception fallback, fixed confidence, evidence bullets, and the
suggested follow-up questions.  Total: the handler never raises. -/
def explain_anomaly (anomaly_type : String) (metrics : Metrics)
    (detected_at : String) : ExplainResponse :=
  let explanation :=
    match tryFormat anomaly_type metrics with
    | .ok s => s
    | .error _ => "Anomaly detected: " ++ anomaly_type
  { anomaly_type := anomaly_type
    explanation := explanation
    confidence := (85 : Rat) / 100
    evidence_bullets :=
      ["Detected at " ++ detected_at, "Metrics: " ++ jsonDumps metrics]
    suggested_followup := get_followup_questions anomaly_type }

/-- A row of the sessions query in `generate_report` (LEFT JOINs make the
names nullable); timestamps are seconds, absent `NULL` timestamps are
`none` (Python `None` is falsy, a datetime value is always truthy). -/
structure Session where
  id : String
  started_at : Option Rat
  ended_at : Option Rat
  candidate_name : Option String
  interviewer_name : Option String
deriving DecidableEq

/-- A row of the anomalies query: the fields `generate_report_summary`
and `get_overall_recommendation` read. -/
structure AnomalyRecord where
  anomaly_type : String
  severity : String
  description : String
  detected_at : Rat
deriving DecidableEq

/-- The event-summary aggregate row (COUNT, MIN, MAX over events). -/
structure EventSummary where
  event_count : Nat
  first_event : Option Rat
  last_event : Option Rat
deriving DecidableEq

/-- One structured high-priority flag descriptor of the report. -/
structure Flag where
  type : String
  description : String
  detected_at : String
deriving DecidableEq

/-- The metrics object of the report summary. -/
structure ReportMetrics where
  duration_minutes : Rat
  total_anomalies : Nat
  high_severity_count : Nat
  anomaly_breakdown : List (String × Nat)
  event_count : Nat
deriving DecidableEq

/-- The value `generate_report_summary` returns. -/
structure ReportSummary where
  summary : String
  metrics : ReportMetrics
  high_priority_flags : List Flag
deriving DecidableEq

/-- Timestamp serialization `datetime.isoformat()`; the timestamp is a
rational in this model, its rendering an injective abstraction. -/
def isoformat (t : Rat) : String := ratStr t

/-- One step of the dict update `anomaly_counts[atype] =
anomaly_counts.get(atype, 0) + 1`: increment in place when the key is
present (a dict keeps its insertion position), append it otherwise. -/
def bump : List (String × Nat) → String → List (String × Nat)
  | [], k => [(k, 1)]
  | (k', c) :: rest, k =>
      if k' = k then (k', c + 1) :: rest else (k', c) :: bump rest k

/-- The single categorization loop of `generate_report_summary`, with its
two accumulators: the per-type counts dict and the high-severity list. -/
def categorizeFrom (acc : List (String × Nat) × List AnomalyRecord) :
    List AnomalyRecord → List (String × Nat) × List AnomalyRecord
  | [] => acc
  | a :: rest =>
      categorizeFrom
        (bump acc.1 a.anomaly_type,
         if a.severity = "high" then acc.2 ++ [a] else acc.2) rest

/-- The categorization loop started from empty accumulators. -/
def categorize (anomalies : List AnomalyRecord) :
    List (String × Nat) × List AnomalyRecord :=
  categorizeFrom ([], []) anomalies

/-- The `get_overall_recommendation` policy: four messages, ranked. -/
def get_overall_recommendation (anomalies : List AnomalyRecord)
    (duration : Rat) : String :=
  let high_severity := anomalies.filter (fun a => a.severity = "high")
  if anomalies.isEmpty then
    "Session appeared normal. Candidate can proceed to next stage."
  else if high_severity.length ≥ 3 then
    "Multiple high-severity flags detected. Recommend follow-up discussion with candidate."
  else if high_severity.length > 0 then
    "Some concerns noted. Suggest brief follow-up to clarify flagged behaviors."
  else
    "Minor flags detected but likely not concerning. Candidate can proceed with note of minor observations."

/-- Duration computation of `generate_report_summary`: minutes between
the two timestamps when both are present, else 0. -/
def session_duration (session : Session) : Rat :=
  match session.ended_at, session.started_at with
  | some e, some s => (e - s) / 60
  | _, _ => 0

/-- The prose summary: the `summary_parts` list of the source joined
with newlines. -/
def summaryText (duration : Rat) (anomalies : List AnomalyRecord)
    (anomaly_counts : List (String × Nat))
    (high_severity : List AnomalyRecord) : String :=
  let p1 := "Interview session completed with duration of " ++
    fmtFixed1 duration ++ " minutes."
  let p2 := "Total of " ++ toString anomalies.length ++
    " behavioral flags detected during the session."
  let warn : List String :=
    if high_severity.isEmpty then []
    else
      ("\n⚠️  " ++ toString high_severity.length ++
        " high-severity flags require attention:") ::
      (high_severity.take 3).map (fun a => "  - " ++ a.description)
  let breakdown : List String :=
    if anomaly_counts.isEmpty then
      ["\n✓ No significant anomalies detected. Session appeared normal."]
    else
      "\nAnomaly breakdown:" ::
      anomaly_counts.map (fun p =>
        "  - " ++ p.1 ++ ": " ++ toString p.2 ++ " occurrences")
  let recLine := "\n📝 Recommendation: " ++
    get_overall_recommendation anomalies duration
  String.intercalate "\n" ([p1, p2] ++ warn ++ breakdown ++ [recLine])

/-- The aggregator `generate_report_summary`. -/
def generate_report_summary (session : Session)
    (anomalies : List AnomalyRecord) (event_summary : EventSummary) :
    ReportSummary :=
  let duration := session_duration session
  let cat := categorize anomalies
  { summary := summaryText duration anomalies cat.1 cat.2
    metrics :=
      { duration_minutes := duration
        total_anomalies := anomalies.length
        high_severity_count := cat.2.length
        anomaly_breakdown := cat.1
        event_count := event_summary.event_count }
    high_priority_flags := cat.2.map (fun a =>
      { type := a.anomaly_type
        description := a.description
        detected_at := isoformat a.detected_at }) }

/-- An HTTPException as FastAPI delivers it: status code and detail. -/
structure HTTPError where
  status_code : Nat
  detail : String
deriving DecidableEq

/-- Python `str()` of a Starlette HTTPException: "status: detail". -/
def httpExcStr (e : HTTPError) : String :=
  toString e.status_code ++ ": " ++ e.detail

/-- The success body of the /generate_report endpoint. -/
structure ReportResponse where
  report_id : Nat
  session_id : String
  generated_at : String
  summary : ReportSummary
deriving DecidableEq

/-- The storage the one report-generation call observes: the session row
its id resolves to (none models an absent session), the ordered anomaly
rows, the event aggregate, and the outcome of the report INSERT (the
error message models any storage-layer exception). -/
structure DBState where
  session : Option Session
  anomalies : List AnomalyRecord
  event_summary : EventSummary
  insert_result : Except String Nat

/-- The observable outcome of one `generate_report` call: the HTTP-level
result, whether the database connection opened by `get_db()` is still
open when the handler terminates, whether a committed report row exists,
and whether aggregation was reached. -/
structure ExecOutcome where
  result : Except HTTPError ReportResponse
  conn_open : Bool
  row_inserted : Bool
  aggregated : Bool

/-- The /generate_report endpoint `generate_report`.  The whole body sits
in one try-block whose `except Exception` clause re-raises every
exception — the handler's own HTTPException(404) included, since
HTTPException is an Exception subclass — as a 500 wrapping `str(e)`.
`conn.close()` is executed only on the straight-line success path; there
is no finally clause, so on either error path the handler terminates
with the connection still open. -/
def generate_report (db : DBState) (session_id : String)
    (now : String) : ExecOutcome :=
  match db.session with
  | none =>
      { result := .error
          { status_code := 500
            detail := "Report generation failed: " ++
              httpExcStr { status_code := 404, detail := "Session not found" } }
        conn_open := true
        row_inserted := false
        aggregated := false }
  | some session =>
      let report_summary :=
        generate_report_summary session db.anomalies db.event_summary
      match db.insert_result with
      | .error msg =>
          { result := .error
              { status_code := 500
                detail := "Report generation failed: " ++ msg }
            conn_open := true
            row_inserted := false
            aggregated := true }
      | .ok rid =>
          { result := .ok
              { report_id := rid
                session_id := session_id
                generated_at := now
                summary := report_summary }
            conn_open := false
            row_inserted := true
            aggregated := true }

/-! Theorems. -/

/-- C1: a report-generation call whose session id does not resolve to an
existing session does terminate before aggregation with no report row,
but the NotFound condition is NOT surfaced as a client-visible
404-equivalent: the handler's own broad `except Exception` catches the
HTTPException(404) and re-raises it as a 500 whose detail wraps
"404: Session not found".  Evaluated at a concrete absent-session state. -/
theorem c1_notfound_becomes_500 :
    (generate_report
        { session := none
          anomalies := []
          event_summary := { event_count := 0, first_event := none, last_event := none }
          insert_result := Except.ok 1 }
        "missing-session" "2024-01-01T00:00:00").result =
      Except.error
        { status_code := 500
          detail := "Report generation failed: 404: Session not found" } ∧
    (generate_report
        { session := none
          anomalies := []
          event_summary := { event_count := 0, first_event := none, last_event := none }
          insert_result := Except.ok 1 }
        "missing-session" "2024-01-01T00:00:00").row_inserted = false ∧
    (generate_report
        { session := none
          anomalies := []
          event_summary := { event_count := 0, first_event := none, last_event := none }
          insert_result := Except.ok 1 }
        "missing-session" "2024-01-01T00:00:00").aggregated = false :=
  ⟨rfl, rfl, rfl⟩

/-- C2: the database connection is NOT released on every outcome.  On the
absent-session path and on the storage-failure path the handler
terminates with the connection still open (`conn.close()` is reached only
on the success path; the source has no finally clause); the success path
does close it. -/
theorem c2_connection_leaks_on_error_paths :
    (generate_report
        { session := none
          anomalies := []
          event_summary := { event_count := 0, first_event := none, last_event := none }
          insert_result := Except.ok 1 }
        "missing-session" "t0").conn_open = true ∧
    (generate_report
        { session := some
            { id := "s1", started_at := some 0, ended_at := some 60,
              candidate_name := none, interviewer_name := none }
          anomalies := []
          event_summary := { event_count := 0, first_event := none, last_event := none }
          insert_result := Except.error "connection lost" }
        "s1" "t0").conn_open = true ∧
    (generate_report
        { session := some
            { id := "s1", started_at := some 0, ended_at := some 60,
              candidate_name := none, interviewer_name := none }
          anomalies := []
          event_summary := { event_count := 0, first_event := none, last_event := none }
          insert_result := Except.ok 1 }
        "s1" "t0").conn_open = false :=
  ⟨rfl, rfl, rfl⟩

/-- C3, counterexample: "excessive_head_movement" is a recognized key of
the template registry, yet `get_followup_questions` returns the generic
single-element list for it, not a list of 3 follow-up questions. -/
theorem c3_counterexample :
    (ANOMALY_EXPLANATIONS.map Prod.fst).contains "excessive_head_movement" = true ∧
    get_followup_questions "excessive_head_movement" =
      ["Can you provide context for this flag?"] ∧
    (get_followup_questions "excessive_head_movement").length ≠ 3 :=
  ⟨by decide, rfl, by decide⟩

/-- C3, amended: for every anomaly type with an entry in the follow-up
question table (the five types of `followupKeys`; the registry key
"excessive_head_movement" has none) the call returns a fixed list of
exactly 3 follow-up questions, and for every other type the
single-element generic list. -/
theorem c3_followups (t : String) :
    (t ∈ followupKeys → (get_followup_questions t).length = 3) ∧
    (t ∉ followupKeys →
      get_followup_questions t = ["Can you provide context for this flag?"]) := by
  constructor
  · intro h
    simp only [followupKeys, List.mem_cons, List.not_mem_nil, or_false] at h
    rcases h with h | h | h | h | h <;> subst h <;> rfl
  · intro h
    simp only [followupKeys, List.mem_cons, List.not_mem_nil, or_false,
      not_or] at h
    obtain ⟨h1, h2, h3, h4, h5⟩ := h
    simp [get_followup_questions, h1, h2, h3, h4, h5]

/-- C3, witness for the amended theorem at the concrete types
"object_phone" (in the table) and "unknown_kind" (not in it). -/
theorem c3_followups_witness :
    (get_followup_questions "object_phone").length = 3 ∧
    get_followup_questions "unknown_kind" =
      ["Can you provide context for this flag?"] :=
  ⟨(c3_followups "object_phone").1 (by decide),
   (c3_followups "unknown_kind").2 (by decide)⟩

/-- Sum of the occurrence counts of a breakdown mapping. -/
def valuesSum (l : List (String × Nat)) : Nat :=
  (l.map Prod.snd).sum

theorem bump_valuesSum (counts : List (String × Nat)) (k : String) :
    valuesSum (bump counts k) = valuesSum counts + 1 := by
  induction counts with
  | nil => rfl
  | cons p rest ih =>
      obtain ⟨k', c⟩ := p
      by_cases h : k' = k
      · simp only [bump, h, if_pos, valuesSum, List.map_cons, List.sum_cons]
        omega
      · simp only [bump, h, if_neg, not_false_iff, valuesSum, List.map_cons,
          List.sum_cons]
        simp only [valuesSum] at ih
        omega

theorem categorizeFrom_spec (l : List AnomalyRecord)
    (acc : List (String × Nat) × List AnomalyRecord) :
    valuesSum (categorizeFrom acc l).1 = valuesSum acc.1 + l.length ∧
    (categorizeFrom acc l).2 =
      acc.2 ++ l.filter (fun a => a.severity = "high") := by
  induction l generalizing acc with
  | nil => simp [categorizeFrom]
  | cons a rest ih =>
      obtain ⟨counts, hs⟩ := acc
      have h := ih (bump counts a.anomaly_type,
        if a.severity = "high" then hs ++ [a] else hs)
      constructor
      · rw [categorizeFrom, h.1, bump_valuesSum]
        simp only [List.length_cons]
        omega
      · rw [categorizeFrom, h.2]
        by_cases hsev : a.severity = "high" <;>
          simp [hsev, List.filter_cons]

/-- C4: for every session, anomaly list and event summary, the aggregated
report satisfies: the anomaly-breakdown counts sum to the total anomaly
count; the high-severity count equals the number of records with severity
"high"; and the high-priority flag list is exactly the (full, untruncated)
list of high-severity anomalies rendered as flag descriptors, so its
length equals the high-severity count. -/
theorem c4_summary_invariants (session : Session)
    (anomalies : List AnomalyRecord) (es : EventSummary) :
    valuesSum (generate_report_summary session anomalies es).metrics.anomaly_breakdown =
      (generate_report_summary session anomalies es).metrics.total_anomalies ∧
    (generate_report_summary session anomalies es).metrics.high_severity_count =
      (anomalies.filter (fun a => a.severity = "high")).length ∧
    (generate_report_summary session anomalies es).high_priority_flags =
      (anomalies.filter (fun a => a.severity = "high")).map (fun a =>
        { type := a.anomaly_type
          description := a.description
          detected_at := isoformat a.detected_at }) ∧
    (generate_report_summary session anomalies es).high_priority_flags.length =
      (generate_report_summary session anomalies es).metrics.high_severity_count := by
  have h := categorizeFrom_spec anomalies ([], [])
  simp only [valuesSum, List.map_nil, List.sum_nil, List.nil_append] at h
  refine ⟨?_, ?_, ?_, ?_⟩
  · simp only [generate_report_summary, categorize, valuesSum]
    rw [h.1]
    omega
  · simp only [generate_report_summary, categorize, h.2]
  · simp only [generate_report_summary, categorize, h.2]
  · simp only [generate_report_summary, categorize, h.2, List.length_map]

/-- C5: the recommendation is one of four fixed messages selected in the
source's priority order: an empty anomaly list gives the proceed message;
otherwise at least 3 high-severity anomalies give the multiple-high-
severity message; otherwise 1 or 2 give the brief-follow-up message;
otherwise (non-empty, no high severity) the minor-flags message. -/
theorem c5_recommendation (anomalies : List AnomalyRecord) (duration : Rat) :
    (anomalies = [] →
      get_overall_recommendation anomalies duration =
        "Session appeared normal. Candidate can proceed to next stage.") ∧
    (anomalies ≠ [] →
      3 ≤ (anomalies.filter (fun a => a.severity = "high")).length →
      get_overall_recommendation anomalies duration =
        "Multiple high-severity flags detected. Recommend follow-up discussion with candidate.") ∧
    (anomalies ≠ [] →
      1 ≤ (anomalies.filter (fun a => a.severity = "high")).length →
      (anomalies.filter (fun a => a.severity = "high")).length < 3 →
      get_overall_recommendation anomalies duration =
        "Some concerns noted. Suggest brief follow-up to clarify flagged behaviors.") ∧
    (anomalies ≠ [] →
      (anomalies.filter (fun a => a.severity = "high")).length = 0 →
      get_overall_recommendation anomalies duration =
        "Minor flags detected but likely not concerning. Candidate can proceed with note of minor observations.") := by
  refine ⟨?_, ?_, ?_, ?_⟩
  · intro h
    subst h
    rfl
  · intro hne h3
    simp [get_overall_recommendation, List.isEmpty_iff, hne, h3]
  · intro hne h1 h3
    have hlt : ¬ (anomalies.filter (fun a => a.severity = "high")).length ≥ 3 := by
      omega
    have hpos : (anomalies.filter (fun a => a.severity = "high")).length > 0 := by
      omega
    simp [get_overall_recommendation, List.isEmpty_iff, hne, hlt, hpos]
  · intro hne h0
    simp [get_overall_recommendation, List.isEmpty_iff, hne, h0]

/-- A concrete high-severity anomaly record used by witnesses. -/
def aHigh : AnomalyRecord :=
  { anomaly_type := "object_phone", severity := "high",
    description := "Phone detected", detected_at := 10 }

/-- A concrete medium-severity anomaly record used by witnesses. -/
def aMedium : AnomalyRecord :=
  { anomaly_type := "off_screen_gaze", severity := "medium",
    description := "Gaze off screen", detected_at := 20 }

/-- C5, witness: the four branches of the recommendation policy at
concrete anomaly lists. -/
theorem c5_recommendation_witness :
    get_overall_recommendation [] 0 =
      "Session appeared normal. Candidate can proceed to next stage." ∧
    get_overall_recommendation [aHigh, aHigh, aHigh] 0 =
      "Multiple high-severity flags detected. Recommend follow-up discussion with candidate." ∧
    get_overall_recommendation [aHigh, aMedium, aMedium] 0 =
      "Some concerns noted. Suggest brief follow-up to clarify flagged behaviors." ∧
    get_overall_recommendation [aMedium] 0 =
      "Minor flags detected but likely not concerning. Candidate can proceed with note of minor observations." :=
  ⟨(c5_recommendation [] 0).1 rfl,
   (c5_recommendation [aHigh, aHigh, aHigh] 0).2.1 (by simp [aHigh])
     (by simp [aHigh]),
   (c5_recommendation [aHigh, aMedium, aMedium] 0).2.2.1 (by simp [aHigh])
     (by simp [aHigh, aMedium]) (by simp [aHigh, aMedium]),
   (c5_recommendation [aMedium] 0).2.2.2 (by simp [aMedium])
     (by simp [aMedium])⟩

/-- C6: the duration the aggregator reports equals
(ended_at - started_at) / 60 minutes when both timestamps are present
(with no clamping: an end before the start gives a negative duration),
and equals 0 when either timestamp is absent — a defined, non-failing
case in this total model. -/
theorem c6_duration (session : Session) (anomalies : List AnomalyRecord)
    (es : EventSummary) :
    (∀ e s, session.ended_at = some e → session.started_at = some s →
      (generate_report_summary session anomalies es).metrics.duration_minutes =
        (e - s) / 60 ∧
      (e < s →
        (generate_report_summary session anomalies es).metrics.duration_minutes < 0)) ∧
    (session.ended_at = none ∨ session.started_at = none →
      (generate_report_summary session anomalies es).metrics.duration_minutes = 0) := by
  have hdur : (generate_report_summary session anomalies es).metrics.duration_minutes =
      session_duration session := rfl
  constructor
  · intro e s he hs
    have hval : session_duration session = (e - s) / 60 := by
      simp [session_duration, he, hs]
    refine ⟨by rw [hdur, hval], ?_⟩
    intro hlt
    rw [hdur, hval]
    apply div_neg_of_neg_of_pos
    · exact sub_neg.mpr hlt
    · norm_num
  · intro h
    rw [hdur]
    rcases h with h | h <;> simp [session_duration, h]

/-- C6, witness: a 1500-second session gives 25 minutes, a session with
no end timestamp gives 0, and a session whose end precedes its start
gives a negative duration. -/
theorem c6_duration_witness :
    (generate_report_summary
        { id := "s1", started_at := some 0, ended_at := some 1500,
          candidate_name := none, interviewer_name := none } []
        { event_count := 0, first_event := none, last_event := none }).metrics.duration_minutes =
      (1500 - 0) / 60 ∧
    (generate_report_summary
        { id := "s2", started_at := some 0, ended_at := none,
          candidate_name := none, interviewer_name := none } []
        { event_count := 0, first_event := none, last_event := none }).metrics.duration_minutes = 0 ∧
    (generate_report_summary
        { id := "s3", started_at := some 1500, ended_at := some 0,
          candidate_name := none, interviewer_name := none } []
        { event_count := 0, first_event := none, last_event := none }).metrics.duration_minutes < 0 :=
  ⟨((c6_duration _ [] _).1 1500 0 rfl rfl).1,
   (c6_duration _ [] _).2 (Or.inl rfl),
   ((c6_duration _ [] _).1 0 1500 rfl rfl).2 (by norm_num)⟩

/-- C7: the explain operation is total (this model returns a response for
every input — the source catches every substitution exception), and
whenever template substitution fails it returns the minimal explanation
string built from the literal anomaly type, never an error. -/
theorem c7_substitution_fallback (anomaly_type : String) (metrics : Metrics)
    (detected_at : String)
    (h : tryFormat anomaly_type metrics = Except.error ()) :
    (explain_anomaly anomaly_type metrics detected_at).explanation =
      "Anomaly detected: " ++ anomaly_type ∧
    (explain_anomaly anomaly_type metrics detected_at).anomaly_type =
      anomaly_type := by
  constructor
  · simp [explain_anomaly, h]
  · rfl

/-- C7, witness: a string-valued duration makes the ".1f" substitution
for "object_phone" fail, and the call still returns the minimal
explanation. -/
theorem c7_substitution_fallback_witness :
    tryFormat "object_phone" [("duration_sec", PyVal.str "soon")] =
      Except.error () ∧
    (explain_anomaly "object_phone" [("duration_sec", PyVal.str "soon")]
        "2024-01-01T00:00:00Z").explanation = "Anomaly detected: object_phone" :=
  ⟨by simp [tryFormat, mget, asNum, Except.map],
   (c7_substitution_fallback "object_phone"
      [("duration_sec", PyVal.str "soon")] "2024-01-01T00:00:00Z"
      (by simp [tryFormat, mget, asNum, Except.map])).1⟩

theorem fmtPct0_zero : fmtPct0 0 = "0%" := by
  unfold fmtPct0
  norm_num
  decide

/-- C8, counterexample: for the recognized type "off_screen_gaze" with
the read key `window` missing, substitution does succeed, but the missing
key does NOT default to 0: it defaults to the label "1min", so the result
differs from the one a 0 default would give. -/
theorem c8_counterexample :
    tryFormat "off_screen_gaze" [] ≠
      tryFormat "off_screen_gaze" [("window", PyVal.num 0)] ∧
    tryFormat "off_screen_gaze" [] =
      Except.ok "The candidate was looking away from the screen for 0% of the last 1min. This may indicate they were reading from notes, looking at another device, or distracted." := by
  have h1 : tryFormat "off_screen_gaze" [] =
      Except.ok "The candidate was looking away from the screen for 0% of the last 1min. This may indicate they were reading from notes, looking at another device, or distracted." := by
    simp [tryFormat, mget, asNum, Except.map, pyStr, fmtPct0_zero]
  have h2 : tryFormat "off_screen_gaze" [("window", PyVal.num 0)] =
      Except.ok "The candidate was looking away from the screen for 0% of the last 0. This may indicate they were reading from notes, looking at another device, or distracted." := by
    have hr : List.lookup "off_screen_rate" [("window", PyVal.num 0)] = none := by
      decide
    have hw : List.lookup "window" [("window", PyVal.num 0)] =
        some (PyVal.num 0) := by decide
    have ht : toString (0 : Int) = "0" := by decide
    simp [tryFormat, mget, hr, hw, asNum, Except.map, pyStr, ratStr, ht,
      fmtPct0_zero]
  refine ⟨?_, h1⟩
  rw [h1, h2]
  simp only [ne_eq, Except.ok.injEq]
  decide

/-- C8, amended: for every recognized anomaly type, when the metrics
mapping is missing all the keys that type's template reads, substitution
succeeds rather than failing, and the missing keys act as the defaults
the source supplies: 0 for every numeric key (off_screen_rate,
duration_sec, detection_count, yaw_std, pitch_std) and the label "1min"
(not 0) for window. -/
theorem c8_missing_key_defaults (t : String) (m : Metrics)
    (ht : t ∈ explainKeys)
    (hm : ∀ k ∈ readKeys t, List.lookup k m = none) :
    tryFormat t m =
      tryFormat t ((readKeys t).map (fun k => (k, defaultFor k))) ∧
    ∃ s, tryFormat t m = Except.ok s := by
  simp only [explainKeys, ANOMALY_EXPLANATIONS, List.map_cons, List.map_nil,
    List.mem_cons, List.not_mem_nil, or_false] at ht
  rcases ht with ht | ht | ht | ht | ht | ht <;> subst ht <;>
    simp only [readKeys, if_pos, if_neg, List.mem_cons, List.not_mem_nil,
      or_false, forall_eq_or_imp, forall_eq, String.reduceEq, ite_false,
      ite_true] at hm <;>
    simp [tryFormat, readKeys, defaultFor, mget, hm, asNum, Except.map,
      Except.bind] <;> rfl

/-- C8, witness for the amended theorem: "object_phone" with a metrics
mapping that lacks `duration_sec`. -/
theorem c8_missing_key_defaults_witness :
    tryFormat "object_phone" [("other_key", PyVal.num 7)] =
      tryFormat "object_phone"
        ((readKeys "object_phone").map (fun k => (k, defaultFor k))) ∧
    ∃ s, tryFormat "object_phone" [("other_key", PyVal.num 7)] =
      Except.ok s :=
  c8_missing_key_defaults "object_phone" [("other_key", PyVal.num 7)]
    (by decide) (by decide)

/-- C9: for every anomaly type that is not a recognized template key, the
explain operation returns (without error — the function is total) an
explanation equal to the generic fallback text embedding the literal
anomaly-type string, and the single generic suggested follow-up. -/
theorem c9_unknown_type (t : String) (m : Metrics) (d : String)
    (h : t ∉ explainKeys) :
    (explain_anomaly t m d).explanation =
      "An anomaly of type '" ++ t ++ "' was detected. Please review the session data." ∧
    (∃ pre post, (explain_anomaly t m d).explanation = pre ++ t ++ post) ∧
    (explain_anomaly t m d).suggested_followup =
      ["Can you provide context for this flag?"] := by
  simp only [explainKeys, ANOMALY_EXPLANATIONS, List.map_cons, List.map_nil,
    List.mem_cons, List.not_mem_nil, or_false, not_or] at h
  obtain ⟨h1, h2, h3, h4, h5, h6⟩ := h
  have hfmt : tryFormat t m =
      Except.ok ("An anomaly of type '" ++ t ++ "' was detected. Please review the session data.") := by
    simp [tryFormat, h1, h2, h3, h4, h5, h6]
  have hexp : (explain_anomaly t m d).explanation =
      "An anomaly of type '" ++ t ++ "' was detected. Please review the session data." := by
    simp [explain_anomaly, hfmt]
  refine ⟨hexp, ⟨"An anomaly of type '",
    "' was detected. Please review the session data.", hexp⟩, ?_⟩
  rw [show (explain_anomaly t m d).suggested_followup =
    get_followup_questions t from rfl]
  simp [get_followup_questions, h1, h2, h3, h4, h5]

/-- C9, witness at the concrete unrecognized type "quantum_flicker". -/
theorem c9_unknown_type_witness :
    (explain_anomaly "quantum_flicker" [] "t0").explanation =
      "An anomaly of type '" ++ "quantum_flicker" ++ "' was detected. Please review the session data." ∧
    (∃ pre post, (explain_anomaly "quantum_flicker" [] "t0").explanation =
      pre ++ "quantum_flicker" ++ post) ∧
    (explain_anomaly "quantum_flicker" [] "t0").suggested_followup =
      ["Can you provide context for this flag?"] :=
  c9_unknown_type "quantum_flicker" [] "t0" (by decide)

/-- C10: the aggregated report depends on the event summary only through
its event count: two event summaries with equal counts but arbitrary
(first_event, last_event) extremes give identical reports. -/
theorem c10_event_extremes_no_influence (session : Session)
    (anomalies : List AnomalyRecord) (es1 es2 : EventSummary)
    (h : es1.event_count = es2.event_count) :
    generate_report_summary session anomalies es1 =
      generate_report_summary session anomalies es2 := by
  unfold generate_report_summary
  rw [h]

/-- C10, witness: equal counts, different event extremes. -/
theorem c10_event_extremes_no_influence_witness :
    generate_report_summary
      { id := "s1", started_at := some 0, ended_at := some 60,
        candidate_name := none, interviewer_name := none }
      [] { event_count := 4, first_event := some 1, last_event := some 50 } =
    generate_report_summary
      { id := "s1", started_at := some 0, ended_at := some 60,
        candidate_name := none, interviewer_name := none }
      [] { event_count := 4, first_event := none, last_event := none } :=
  c10_event_extremes_no_influence _ _ _ _ rfl

end VlmService
